import Mathlib

/-!
Verification of the timed output-pattern scheduler of the wiimote node
(`src/wiimote/nodes/wiimote_node.py`).

Shallow embedding conventions:
* Python floats holding fractional seconds are modelled as rationals `ℚ`.
  `round(res, 2)` is modelled by `round2` (round to nearest hundredth;
  Python's half-even tie break differs from Mathlib's `round` only at exact
  odd half-hundredths, which no property here exercises).
* Fallible operations (list indexing on possibly-out-of-range cursors,
  attribute access on `None`) return `Except PyErr _`; an error models the
  Python exception propagating out of the expression that raised it.
* The `SwitchPulser` thread's sweep loop is modelled as a fuel-indexed step
  function over an explicit state (`PulserSt`).  The cooperative `stop` flag
  is modelled by an optional virtual time `stopAt` at which the flag becomes
  true; the loop-head test `while ... not self.stop` reads the flag at the
  current virtual time, and `rospy.sleep` advances virtual time without
  reading the flag (the flag does not interrupt the sleep).
-/

/-- Python exceptions that the embedded code can raise. -/
inductive PyErr where
  | indexError
  | attributeError
  | valueError
  deriving DecidableEq, Repr

/-- Round a rational to hundredths, modelling Python `round(x, 2)`. -/
def round2 (x : ℚ) : ℚ := (round (100 * x) : ℤ) / 100

/-- Embedding of class `OutputPattern` (wiimote_node.py lines 734-847):
the per-channel timing program.  Fields keep the source's names. -/
structure OutputPattern where
  origTimePattern : List ℚ
  timePattern : List ℚ
  numReps : Int
  patternPt : Nat
  patternSpent : Bool
  startOfRepeat : Bool
  deriving DecidableEq, Repr

/-- Embedding of `OutputPattern.__init__` (lines 747-765).  The constructor
copies the message pattern and initializes the cursors; it performs no
validation of any kind (in particular an empty pattern is accepted). -/
def OutputPattern.init (rosMsgPattern : List ℚ) (numReps : Int) : OutputPattern :=
  { origTimePattern := rosMsgPattern
    timePattern := rosMsgPattern
    numReps := numReps
    patternPt := 0
    patternSpent := false
    startOfRepeat := false }

/-- Embedding of `OutputPattern.timeRemaining` (lines 767-772).
`self.timePattern[self.patternPt]` raises `IndexError` when the cursor is
out of range (e.g. on an empty pattern). -/
def OutputPattern.timeRemaining (p : OutputPattern) : Except PyErr (Option ℚ) :=
  if p.patternSpent then .ok none
  else
    match p.timePattern.get? p.patternPt with
    | some v => .ok (some v)
    | none => .error .indexError

/-- Embedding of `OutputPattern.resetForRepeat` (lines 774-793).  Returns the
mutated pattern together with the Python return value. -/
def OutputPattern.resetForRepeat (p : OutputPattern) : OutputPattern × Bool :=
  if p.patternSpent then (p, false)
  else
    let p1 := { p with numReps := p.numReps - 1 }
    if p1.numReps ≤ 0 then (p1, false)
    else ({ p1 with patternPt := 0, timePattern := p1.origTimePattern }, true)

/-- Embedding of `OutputPattern.reduceTimer` (lines 795-840).  Returns the
mutated pattern together with the Python return value (`none` models the
Python `None` return, i.e. the pattern is spent). -/
def OutputPattern.reduceTimer (p : OutputPattern) (time : ℚ) :
    Except PyErr (OutputPattern × Option ℚ) :=
  if p.patternSpent then .ok (p, none)
  else
    match p.timePattern.get? p.patternPt with
    | none => .error .indexError
    | some head =>
      let res0 := head - time
      let res1 := if res0 < 0 then 0 else res0
      let p1 := { p with timePattern := p.timePattern.set p.patternPt res1,
                         startOfRepeat := false }
      let r := round2 res1
      if r ≤ 0 then
        let p2 := { p1 with patternPt := p1.patternPt + 1 }
        if p2.patternPt < p2.timePattern.length then .ok (p2, some r)
        else
          match p2.resetForRepeat with
          | (p3, true) =>
            let p4 := { p3 with startOfRepeat := true }
            match p4.timePattern.get? p4.patternPt with
            | some v => .ok (p4, some v)
            | none => .error .indexError
          | (p3, false) => .ok ({ p3 with patternSpent := true }, none)
      else .ok (p1, some r)

/-- Number of LEDs on the device (`NUM_LEDS` from the wiimote constants
module; the node's own shutdown writes a 4-element LED array). -/
def NUM_LEDS : Nat := 4

/-- Which output the pulser drives (`RUMBLE` / `LED` constants). -/
inductive Indicator where
  | RUMBLE
  | LED
  deriving DecidableEq, Repr

/-- A write issued to the wiimote device collaborator. -/
inductive DevAction where
  | setRumble (b : Bool)
  | setLEDs (mask : List (Option Bool))
  deriving DecidableEq, Repr

/-- Modelled from the spec: the actuator collaborator (class `WIIMote`,
outside `src/`) exposes "set rumble(bool)" / "set LEDs([bool|unchanged; N])"
plus the matching getters; an LED entry of `none` leaves that LED unchanged. -/
structure Wiimote where
  rumble : Bool
  leds : List Bool
  deriving DecidableEq, Repr

/-- Modelled from the spec: applying an LED mask entrywise, `none` entries
leave the corresponding LED at its current state. -/
def applyLEDMask : List Bool → List (Option Bool) → List Bool
  | [], _ => []
  | l :: ls, [] => l :: applyLEDMask ls []
  | l :: ls, m :: ms => m.getD l :: applyLEDMask ls ms

/-- State of one `SwitchPulser` thread together with the device it drives,
the virtual elapsed time `t`, and the timestamped trace of device writes. -/
structure PulserSt where
  pats : List (Option OutputPattern)
  mask : List (Option Bool)
  w : Wiimote
  t : ℚ
  trace : List (ℚ × DevAction)
  deriving DecidableEq, Repr

/-- `self.wiimoteDevice.setRumble(b)` (records the write in the trace). -/
def doSetRumble (b : Bool) (s : PulserSt) : PulserSt :=
  { s with w := { s.w with rumble := b }, trace := s.trace ++ [(s.t, .setRumble b)] }

/-- `self.wiimoteDevice.setLEDs(mask)` (records the write in the trace). -/
def doSetLEDs (mask : List (Option Bool)) (s : PulserSt) : PulserSt :=
  { s with w := { s.w with leds := applyLEDMask s.w.leds mask },
           trace := s.trace ++ [(s.t, .setLEDs mask)] }

/-- The LED mask built by `SwitchPulser.turnIndicatorOn` (lines 697-705):
`some true` for a present pattern, `none` for an absent one, one entry per
LED up to `min NUM_LEDS (len patternArray)`. -/
def ledMaskOf (pats : List (Option OutputPattern)) : List (Option Bool) :=
  (List.range (min NUM_LEDS pats.length)).map fun i =>
    match pats.getD i none with
    | some _ => some true
    | none => none

/-- Embedding of `SwitchPulser.turnIndicatorOn` (lines 677-709).  For
`RUMBLE`: `self.patternArray[0]` raises `IndexError` on an empty array, and
when that slot is `None` the `RUMBLE` branch guard fails so control falls
through to the final `raise ValueError`.  For `LED`: build and store
`self.LEDMask`, then write it.  Errors carry the state at the raise point. -/
def turnIndicatorOn (ind : Indicator) (s : PulserSt) :
    Except (PyErr × PulserSt) PulserSt :=
  match ind with
  | .RUMBLE =>
    match s.pats.get? 0 with
    | none => .error (.indexError, s)
    | some (some _) => .ok (doSetRumble true s)
    | some none => .error (.valueError, s)
  | .LED =>
    let mask := ledMaskOf s.pats
    .ok (doSetLEDs mask { s with mask := mask })

/-- Embedding of `SwitchPulser.flipRumble` (line 720-721). -/
def flipRumble (s : PulserSt) : PulserSt :=
  doSetRumble (!s.w.rumble) s

/-- Embedding of `SwitchPulser.flipLED` (lines 724-732): read the current
LED state, flip the one at `index` through a `[None, None, None, None]`
mask.  Reading `LEDStatus[index]` raises `IndexError` out of range. -/
def flipLED (i : Nat) (s : PulserSt) : Except (PyErr × PulserSt) PulserSt :=
  match s.w.leds.get? i with
  | none => .error (.indexError, s)
  | some cur =>
    if i < 4 then
      .ok (doSetLEDs ((List.replicate 4 (none : Option Bool)).set i (some (!cur))) s)
    else .error (.indexError, s)

/-- Embedding of `SwitchPulser.flipRumbleOrLED` (lines 712-717). -/
def flipRumbleOrLED (ind : Indicator) (i : Nat) (s : PulserSt) :
    Except (PyErr × PulserSt) PulserSt :=
  match ind with
  | .RUMBLE => .ok (flipRumble s)
  | .LED => flipLED i s

/-- The `nextDuration` computation of the sweep loop (lines 610-620):
minimum of `timeRemaining()` over present patterns, `none` acc meaning the
initial `float('inf')`.  A pattern raising inside `timeRemaining`
propagates. -/
def nextDurationOf : List (Option OutputPattern) → Option ℚ → Except PyErr (Option ℚ)
  | [], acc => .ok acc
  | none :: rest, acc => nextDurationOf rest acc
  | some p :: rest, acc =>
    match p.timeRemaining with
    | .error e => .error e
    | .ok none => nextDurationOf rest acc
    | .ok (some v) =>
      nextDurationOf rest (some (match acc with | none => v | some m => min m v))

/-- One iteration of the per-tick update (lines 639-656) for the pattern at
index `i`.  Note the source calls `pattern.reduceTimer(...)` without the
`None` guard used in the `nextDuration` loop, so an absent slot raises
`AttributeError` here. -/
def tickOne (ind : Indicator) (i : Nat) (op : Option OutputPattern) (s : PulserSt)
    (dur : ℚ) : Except (PyErr × PulserSt) PulserSt :=
  match op with
  | none => .error (.attributeError, s)
  | some p =>
    match p.reduceTimer dur with
    | .error e => .error (e, s)
    | .ok (p', reduced) =>
      let s1 := { s with pats := s.pats.set i (some p') }
      match (if p'.startOfRepeat then turnIndicatorOn ind s1 else .ok s1) with
      | .error e => .error e
      | .ok s2 =>
        if reduced = some 0 then flipRumbleOrLED ind i s2 else .ok s2

/-- The per-tick update applied to the pattern indices in order. -/
def tickIdx (ind : Indicator) (dur : ℚ) :
    List Nat → PulserSt → Except (PyErr × PulserSt) PulserSt
  | [], s => .ok s
  | i :: rest, s =>
    match tickOne ind i (s.pats.getD i none) s dur with
    | .error e => .error e
    | .ok s' => tickIdx ind dur rest s'

/-- The whole `for pattern, patternIndex in zip(...)` tick loop. -/
def tickAll (ind : Indicator) (dur : ℚ) (s : PulserSt) :
    Except (PyErr × PulserSt) PulserSt :=
  tickIdx ind dur (List.range s.pats.length) s

/-- The cooperative stop flag, set (by another thread) at virtual time
`stopAt`; a read at time `t` observes it iff `stopAt ≤ t`.  `none` means the
flag is never set.  `rospy.is_shutdown()` is modelled as always false. -/
def stopObserved : Option ℚ → ℚ → Bool
  | none, _ => false
  | some q, t => decide (q ≤ t)

/-- How the sweep loop ended. -/
inductive LoopExit where
  | normal
  | allDone
  | err (e : PyErr)
  deriving DecidableEq, Repr

/-- Embedding of the sweep loop of `SwitchPulser.run` (lines 606-658),
fuel-indexed (`none` = fuel exhausted before the loop terminated):
check the stop flag, compute `nextDuration`, `exit(0)` when it stayed
infinite, sleep (advance `t`), then run the tick loop. -/
def sweepLoop (ind : Indicator) (stopAt : Option ℚ) :
    Nat → PulserSt → Option (LoopExit × PulserSt)
  | 0, _ => none
  | fuel + 1, s =>
    if stopObserved stopAt s.t then some (.normal, s)
    else
      match nextDurationOf s.pats none with
      | .error e => some (.err e, s)
      | .ok none => some (.allDone, s)
      | .ok (some d) =>
        let s1 := { s with t := s.t + d }
        match tickAll ind d s1 with
        | .error (e, s2) => some (.err e, s2)
        | .ok s2 => sweepLoop ind stopAt fuel s2

/-- Embedding of the `finally` block of `SwitchPulser.run` (lines 662-673):
rumble is switched off unconditionally; each `LEDMask` entry that is not
`None` is set to `False` and the mask is written back. -/
def cleanup (ind : Indicator) (s : PulserSt) : PulserSt :=
  match ind with
  | .RUMBLE => doSetRumble false s
  | .LED =>
    let newMask := s.mask.map fun o => match o with
      | some _ => some false
      | none => none
    doSetLEDs newMask { s with mask := newMask }

/-- Result of a terminated `SwitchPulser.run`. -/
structure RunResult where
  exitKind : LoopExit
  preCleanup : PulserSt
  final : PulserSt
  escErr : Option PyErr
  deriving DecidableEq, Repr

/-- Outcome of `SwitchPulser.run`: the initial `turnIndicatorOn` happens
before the `try`, so an exception there escapes without cleanup
(`preTryError`); otherwise the `finally` cleanup always runs (`finished`).
For `RUMBLE` the `finally` block itself calls `exit(0)`, which replaces any
in-flight exception, so `escErr` is cleared; for `LED` a sweep exception
propagates after the cleanup. -/
inductive RunOutcome where
  | preTryError (e : PyErr) (s : PulserSt)
  | finished (r : RunResult)
  deriving DecidableEq, Repr

/-- Embedding of `SwitchPulser.run` (lines 598-673) for a pulser built from
`patternArray = pats` and `outputIndicator = ind`, on device `w`, with the
stop flag set at `stopAt`. -/
def runPulser (fuel : Nat) (pats : List (Option OutputPattern)) (ind : Indicator)
    (stopAt : Option ℚ) (w : Wiimote) : Option RunOutcome :=
  let s0 : PulserSt := { pats := pats, mask := [], w := w, t := 0, trace := [] }
  match turnIndicatorOn ind s0 with
  | .error (e, s) => some (.preTryError e s)
  | .ok s1 =>
    match sweepLoop ind stopAt fuel s1 with
    | none => none
    | some (ex, s2) =>
      some (.finished
        { exitKind := ex
          preCleanup := s2
          final := cleanup ind s2
          escErr := match ex, ind with
            | .err e, .LED => some e
            | _, _ => none })

/-- The device with rumble off and all four LEDs off (the node's own
shutdown state, used as a concrete start state). -/
def initialWiimote : Wiimote := { rumble := false, leds := [false, false, false, false] }

/-- Modelled from the spec: `SWITCH_ON` from the wiimote constants module
(outside `src/`); the listener docstring gives -1.0 for "turn rumble on". -/
def SWITCH_ON : ℚ := -1

/-- Modelled from the spec: `SWITCH_OFF` from the wiimote constants module
(outside `src/`); the listener docstring gives 0 for "turn rumble off". -/
def SWITCH_OFF : ℚ := 0

/-- Modelled from the spec: `SWITCH_PULSE_PATTERN` from the wiimote constants
module (outside `src/`); a third mode value distinct from on/off. -/
def SWITCH_PULSE_PATTERN : ℚ := 1

/-- The rumble part of a `RumbleControl` message. -/
structure RumbleMsg where
  switch_mode : ℚ
  pulse_pattern : List ℚ
  num_cycles : Int
  deriving DecidableEq, Repr

/-- One `TimedSwitch` of an `LEDControl` message (the LED callback uses only
its pattern and cycle count). -/
structure TimedSwitchMsg where
  pulse_pattern : List ℚ
  num_cycles : Int
  deriving DecidableEq, Repr

/-- An `LEDControl` message. -/
structure LEDMsg where
  switch_array : List ℚ
  timed_switch_array : List TimedSwitchMsg
  deriving DecidableEq, Repr

/-- What a listener callback does, at the level the serialization claims
talk about: stop-and-join the referenced pulser thread, write the actuator
directly, log an illegal request, or construct/start/join a new pulser. -/
inductive CtrlAction where
  | stopJoin
  | logIllegal
  | setRumbleDirect (b : Bool)
  | setLEDsDirect (arr : List ℚ)
  | startJoinPulser (pats : List (Option OutputPattern)) (ind : Indicator)
  deriving DecidableEq, Repr

/-- The listener's mutable state: `self.pulserThread` (a reference to the
most recently started pulser thread, or `None`). -/
structure ListenerSt where
  pulserThread : Option Unit
  deriving DecidableEq, Repr

/-- Embedding of `rumbleSwitchCallback` (lines 482-518): any rumble request
first stops and joins a referenced pulser thread (and clears the
reference), then dispatches on `switch_mode`; `num_cycles == 0` pulse
requests do nothing further; otherwise a one-slot pulser is built, started
and joined. -/
def rumbleSwitchCallback (msg : RumbleMsg) (st : ListenerSt) :
    ListenerSt × List CtrlAction :=
  let stPre : ListenerSt × List CtrlAction :=
    match st.pulserThread with
    | some _ => ({ pulserThread := none }, [.stopJoin])
    | none => (st, [])
  let st1 := stPre.1
  let pre := stPre.2
  if msg.switch_mode = SWITCH_ON then (st1, pre ++ [.setRumbleDirect true])
  else if msg.switch_mode = SWITCH_OFF then (st1, pre ++ [.setRumbleDirect false])
  else if msg.switch_mode ≠ SWITCH_PULSE_PATTERN then (st1, pre ++ [.logIllegal])
  else if msg.num_cycles = 0 then (st1, pre)
  else
    ({ pulserThread := some () },
     pre ++ [.startJoinPulser [some (OutputPattern.init msg.pulse_pattern msg.num_cycles)]
               .RUMBLE])

/-- Embedding of `ledControlCallback` (lines 521-549): no stop/join of any
referenced pulser thread; either a direct LED write (first array entry not
the -1 sentinel) or a new pulser built from the timed switches (note: one
`OutputPattern` per entry — never an absent slot) which overwrites
`self.pulserThread`.  `msg.switch_array[0]` raises on an empty array. -/
def ledControlCallback (msg : LEDMsg) (st : ListenerSt) :
    Except PyErr (ListenerSt × List CtrlAction) :=
  match msg.switch_array.get? 0 with
  | none => .error .indexError
  | some v =>
    if v ≠ -1 then .ok (st, [.setLEDsDirect msg.switch_array])
    else
      .ok ({ pulserThread := some () },
        [.startJoinPulser
           (msg.timed_switch_array.map fun ts =>
             some (OutputPattern.init ts.pulse_pattern ts.num_cycles))
           .LED])

/-- The scenario-B pattern set: LED0 `[0.2, 0.3] × 1`, LED1 absent,
LED2 `[1.0] × 3`, LED3 absent. -/
def patsB : List (Option OutputPattern) :=
  [some (OutputPattern.init [1/5, 3/10] 1), none, some (OutputPattern.init [1] 3), none]

/-- The result of sweeping `patsB`: the first tick (t = 0.2) flips LED0 and
then hits the absent LED1 slot, whose missing `None` guard raises
`AttributeError`; the cleanup still runs. -/
def runB : RunResult :=
  { exitKind := .err .attributeError
    preCleanup :=
      { pats := [some { origTimePattern := [1/5, 3/10], timePattern := [0, 3/10],
                        numReps := 1, patternPt := 1, patternSpent := false,
                        startOfRepeat := false },
                 none,
                 some (OutputPattern.init [1] 3),
                 none]
        mask := [some true, none, some true, none]
        w := { rumble := false, leds := [false, false, true, false] }
        t := 1/5
        trace := [(0, .setLEDs [some true, none, some true, none]),
                  (1/5, .setLEDs [some false, none, none, none])] }
    final :=
      { pats := [some { origTimePattern := [1/5, 3/10], timePattern := [0, 3/10],
                        numReps := 1, patternPt := 1, patternSpent := false,
                        startOfRepeat := false },
                 none,
                 some (OutputPattern.init [1] 3),
                 none]
        mask := [some false, none, some false, none]
        w := { rumble := false, leds := [false, false, false, false] }
        t := 1/5
        trace := [(0, .setLEDs [some true, none, some true, none]),
                  (1/5, .setLEDs [some false, none, none, none]),
                  (1/5, .setLEDs [some false, none, some false, none])] }
    escErr := some .attributeError }

/-- C1: a `PatternSet` with an absent slot is NOT swept to completion: the
per-tick loop of `SwitchPulser.run` calls `reduceTimer` on the `None` slot
(no skip, unlike the `nextDuration` loop) and raises `AttributeError` at the
very first tick (t = 0.2 in scenario B); LED2 is still at its untouched
initial pattern, far from spent, when the sweep aborts.  This contradicts
the `SwitchPulser` docstring ("If one of the elements is None, that output
indicator is left unchanged"), so the code, not the claim, is at fault. -/
theorem C1_absent_slot_crashes_tick :
    runPulser 2 patsB .LED none initialWiimote = some (.finished runB) ∧
    runB.exitKind = .err .attributeError ∧
    runB.preCleanup.t = 1/5 ∧
    runB.preCleanup.pats.getD 2 none = some (OutputPattern.init [1] 3) := by
  refine ⟨?_, rfl, rfl, rfl⟩
  norm_num [runPulser, turnIndicatorOn, sweepLoop, nextDurationOf, tickAll, tickIdx,
    tickOne, OutputPattern.init, OutputPattern.timeRemaining, OutputPattern.reduceTimer,
    OutputPattern.resetForRepeat, stopObserved, doSetRumble, doSetLEDs, flipRumbleOrLED,
    flipRumble, flipLED, cleanup, round2, initialWiimote, patsB, runB, ledMaskOf,
    applyLEDMask, List.range_succ, NUM_LEDS, List.replicate, List.set]

/-- The rumble pattern of scenario A/C: `[0.5, 0.5]` with 2 repeats. -/
def patC4 : OutputPattern := OutputPattern.init [1/2, 1/2] 2

/-- The result of running scenario A with the stop flag set at t = 0.1: the
sleep runs to t = 0.5, the t = 0.5 tick fires (flip to OFF), and only the
next loop-head check observes the flag and exits with cleanup. -/
def runC4 : RunResult :=
  { exitKind := .normal
    preCleanup :=
      { pats := [some { origTimePattern := [1/2, 1/2], timePattern := [0, 1/2],
                        numReps := 2, patternPt := 1, patternSpent := false,
                        startOfRepeat := false }]
        mask := []
        w := { rumble := false, leds := [false, false, false, false] }
        t := 1/2
        trace := [(0, .setRumble true), (1/2, .setRumble false)] }
    final :=
      { pats := [some { origTimePattern := [1/2, 1/2], timePattern := [0, 1/2],
                        numReps := 2, patternPt := 1, patternSpent := false,
                        startOfRepeat := false }]
        mask := []
        w := { rumble := false, leds := [false, false, false, false] }
        t := 1/2
        trace := [(0, .setRumble true), (1/2, .setRumble false), (1/2, .setRumble false)] }
    escErr := none }

/-- C4 counterexample: cancelling at t = 0.1 during scenario A does NOT wake
the sweep promptly: the sweep's virtual time on exit is 0.5, not < 0.5, and
the t = 0.5 tick (the flip recorded at time 1/2) does fire before exit. -/
theorem C4_prompt_cancel_counterexample :
    runPulser 3 [some patC4] .RUMBLE (some (1/10)) initialWiimote
      = some (.finished runC4) ∧
    runC4.preCleanup.trace = [(0, .setRumble true), (1/2, .setRumble false)] ∧
    ¬ runC4.preCleanup.t < 1/2 := by
  refine ⟨?_, rfl, by norm_num [runC4]⟩
  norm_num [runPulser, turnIndicatorOn, sweepLoop, nextDurationOf, tickAll, tickIdx,
    tickOne, OutputPattern.init, OutputPattern.timeRemaining, OutputPattern.reduceTimer,
    OutputPattern.resetForRepeat, stopObserved, doSetRumble, doSetLEDs, flipRumbleOrLED,
    flipRumble, flipLED, cleanup, round2, initialWiimote, patC4, runC4]

/-- C4 amended: a stop flag set during the wait is observed only at the next
loop-head check after the wait completes: for scenario C the sweep exits at
t = 0.5 (after the t = 0.5 flip has fired) via the normal stop path, and the
cleanup still forces rumble OFF. -/
theorem C4_cancel_observed_after_wait :
    runPulser 3 [some patC4] .RUMBLE (some (1/10)) initialWiimote
      = some (.finished runC4) ∧
    runC4.exitKind = .normal ∧
    runC4.preCleanup.t = 1/2 ∧
    runC4.final.trace = [(0, .setRumble true), (1/2, .setRumble false),
                         (1/2, .setRumble false)] ∧
    runC4.final.w.rumble = false := by
  refine ⟨?_, rfl, rfl, rfl, rfl⟩
  norm_num [runPulser, turnIndicatorOn, sweepLoop, nextDurationOf, tickAll, tickIdx,
    tickOne, OutputPattern.init, OutputPattern.timeRemaining, OutputPattern.reduceTimer,
    OutputPattern.resetForRepeat, stopObserved, doSetRumble, doSetLEDs, flipRumbleOrLED,
    flipRumble, flipLED, cleanup, round2, initialWiimote, patC4, runC4]

/-- The result of sweeping a single empty rumble pattern: the first
`timeRemaining()` of the `nextDuration` computation raises `IndexError`
mid-sweep (after rumble was already forced ON); the cleanup still runs. -/
def runEmpty : RunResult :=
  { exitKind := .err .indexError
    preCleanup :=
      { pats := [some (OutputPattern.init [] 1)]
        mask := []
        w := { rumble := true, leds := [false, false, false, false] }
        t := 0
        trace := [(0, .setRumble true)] }
    final :=
      { pats := [some (OutputPattern.init [] 1)]
        mask := []
        w := { rumble := false, leds := [false, false, false, false] }
        t := 0
        trace := [(0, .setRumble true), (0, .setRumble false)] }
    escErr := none }

/-- C5 counterexample: a zero-length duration sequence is NOT rejected at
construction — `__init__` performs no validation, so the constructed
pattern is a live (non-spent) pattern whose `timeRemaining()` raises
`IndexError`; sweeping it fails mid-sweep at the first `nextDuration`
computation. -/
theorem C5_empty_pattern_counterexample :
    (OutputPattern.init [] 1).patternSpent = false ∧
    (OutputPattern.init [] 1).timeRemaining = .error .indexError ∧
    runPulser 2 [some (OutputPattern.init [] 1)] .RUMBLE none initialWiimote
      = some (.finished runEmpty) ∧
    runEmpty.exitKind = .err .indexError := by
  refine ⟨rfl, rfl, ?_, rfl⟩
  norm_num [runPulser, turnIndicatorOn, sweepLoop, nextDurationOf,
    OutputPattern.init, OutputPattern.timeRemaining, stopObserved, doSetRumble,
    cleanup, initialWiimote, runEmpty]

/-- C5 amended: for every repeat count, constructing from a zero-length
sequence succeeds (the constructor validates nothing) and yields a
non-spent pattern on which `timeRemaining()` is undefined (raises
`IndexError`) — the malformed pattern is discovered at first use, not at
construction. -/
theorem C5_empty_pattern_accepted_fails_at_use (m : Int) :
    (OutputPattern.init [] m).patternSpent = false ∧
    (OutputPattern.init [] m).timeRemaining = .error .indexError :=
  ⟨rfl, rfl⟩

/-- C6 counterexample: a pattern constructed with `repeatCount = 0` does NOT
immediately yield `timeRemaining() == none` (nor is it rejected): the very
first call returns the first duration of the sequence. -/
theorem C6_zero_repeat_counterexample :
    (OutputPattern.init [1/2] 0).timeRemaining = .ok (some (1/2)) ∧
    (Except.ok (some (1/2 : ℚ)) : Except PyErr (Option ℚ)) ≠ .ok none := by
  exact ⟨rfl, by simp⟩

/-- C6 amended: for every non-empty duration sequence, a pattern constructed
with `repeatCount = 0` is accepted and its first `timeRemaining()` returns
the first duration (the durations are scheduled; only the rumble callback's
separate `num_cycles == 0` boundary check prevents such a pattern from being
started in the rumble path). -/
theorem C6_zero_repeat_timeRemaining_head (d : ℚ) (ds : List ℚ) :
    (OutputPattern.init (d :: ds) 0).timeRemaining = .ok (some d) :=
  rfl

/-- An LED pattern request (sentinel -1 first, one timed switch). -/
def ledPatternMsg : LEDMsg :=
  { switch_array := [-1], timed_switch_array := [{ pulse_pattern := [1], num_cycles := 1 }] }

/-- C7 counterexample: an LED pattern request arriving while a pulser thread
is referenced does NOT cancel it: `ledControlCallback` emits no
stop-and-join — it immediately starts a new pulser and overwrites the
reference. -/
theorem C7_led_no_cancel_counterexample :
    ledControlCallback ledPatternMsg { pulserThread := some () }
      = .ok ({ pulserThread := some () },
             [.startJoinPulser [some (OutputPattern.init [1] 1)] .LED]) ∧
    CtrlAction.stopJoin
      ∉ [CtrlAction.startJoinPulser [some (OutputPattern.init [1] 1)] Indicator.LED] := by
  constructor
  · norm_num [ledControlCallback, ledPatternMsg, OutputPattern.init]
  · simp

/-- C7 amended: the cancel-and-wait protocol holds for rumble requests only:
every rumble request processed while a pulser thread is referenced begins by
stopping and joining it, whereas no LED request (direct or pattern) ever
emits a stop-and-join. -/
theorem C7_cancel_protocol_amended :
    (∀ msg : RumbleMsg,
      ((rumbleSwitchCallback msg { pulserThread := some () }).2).head?
        = some CtrlAction.stopJoin) ∧
    (∀ (msg : LEDMsg) (st st' : ListenerSt) (acts : List CtrlAction),
      ledControlCallback msg st = .ok (st', acts) → CtrlAction.stopJoin ∉ acts) := by
  constructor
  · intro msg
    unfold rumbleSwitchCallback
    split_ifs <;> rfl
  · intro msg st st' acts h
    unfold ledControlCallback at h
    split at h
    · exact absurd h (by simp)
    · split at h <;>
        · simp only [Except.ok.injEq, Prod.mk.injEq] at h
          rw [← h.2]
          simp

/-- C7 witness: applying the amended theorem at a concrete LED pattern
request processed with an active pulser reference. -/
theorem C7_cancel_protocol_amended_witness :
    CtrlAction.stopJoin
      ∉ [CtrlAction.startJoinPulser [some (OutputPattern.init [1] 1)] Indicator.LED] :=
  C7_cancel_protocol_amended.2 ledPatternMsg { pulserThread := some () }
    { pulserThread := some () }
    [.startJoinPulser [some (OutputPattern.init [1] 1)] .LED]
    (by norm_num [ledControlCallback, ledPatternMsg, OutputPattern.init])

/-- A rumble request with an unrecognized mode value. -/
def invalidRumbleMsg : RumbleMsg :=
  { switch_mode := 7, pulse_pattern := [1/2], num_cycles := 2 }

/-- C8 counterexample: an invalid-mode rumble request is NOT free of effect
on the currently active pulser: the callback stops and joins it (and clears
the thread reference) before even looking at the mode. -/
theorem C8_invalid_mode_counterexample :
    rumbleSwitchCallback invalidRumbleMsg { pulserThread := some () }
      = ({ pulserThread := none }, [.stopJoin, .logIllegal]) ∧
    CtrlAction.stopJoin ∈ [CtrlAction.stopJoin, CtrlAction.logIllegal] := by
  constructor
  · norm_num [rumbleSwitchCallback, invalidRumbleMsg, SWITCH_ON, SWITCH_OFF,
      SWITCH_PULSE_PATTERN]
  · simp

/-- C8 amended: an invalid-mode rumble request performs no direct actuator
write and starts no pulser, and is only logged — but, like every rumble
request, it first stops and joins any referenced pulser thread (whose
cleanup then switches rumble off); with no active pulser it is a pure
log-and-ignore. -/
theorem C8_invalid_mode_amended (msg : RumbleMsg)
    (h1 : msg.switch_mode ≠ SWITCH_ON) (h2 : msg.switch_mode ≠ SWITCH_OFF)
    (h3 : msg.switch_mode ≠ SWITCH_PULSE_PATTERN) :
    rumbleSwitchCallback msg { pulserThread := none }
      = ({ pulserThread := none }, [.logIllegal]) ∧
    rumbleSwitchCallback msg { pulserThread := some () }
      = ({ pulserThread := none }, [.stopJoin, .logIllegal]) := by
  constructor <;> simp [rumbleSwitchCallback, h1, h2, h3]

/-- C8 witness: applying the amended theorem at the concrete invalid-mode
request (mode 7). -/
theorem C8_invalid_mode_amended_witness :
    rumbleSwitchCallback invalidRumbleMsg { pulserThread := none }
      = ({ pulserThread := none }, [.logIllegal]) ∧
    rumbleSwitchCallback invalidRumbleMsg { pulserThread := some () }
      = ({ pulserThread := none }, [.stopJoin, .logIllegal]) :=
  C8_invalid_mode_amended invalidRumbleMsg
    (by norm_num [invalidRumbleMsg, SWITCH_ON])
    (by norm_num [invalidRumbleMsg, SWITCH_OFF])
    (by norm_num [invalidRumbleMsg, SWITCH_PULSE_PATTERN])

/-- Indexing an append at the length of the prefix hits the first element of
the suffix. -/
theorem get?_append_cons (front : List ℚ) (x : ℚ) (l : List ℚ) :
    (front ++ x :: l).get? front.length = some x := by
  induction front with
  | nil => rfl
  | cons a f ih => simpa using ih

/-- Setting an append at the length of the prefix replaces the first element
of the suffix. -/
theorem set_append_cons (front : List ℚ) (x v : ℚ) (l : List ℚ) :
    (front ++ x :: l).set front.length v = front ++ v :: l := by
  induction front with
  | nil => rfl
  | cons a f ih => simp [ih]

/-- Rounding zero to hundredths gives zero. -/
theorem round2_zero : round2 0 = 0 := by
  simp [round2]

/-- Rounding to hundredths preserves nonnegativity. -/
theorem round2_nonneg {x : ℚ} (hx : 0 ≤ x) : 0 ≤ round2 x := by
  unfold round2
  apply div_nonneg _ (by norm_num)
  have : (0 : ℤ) ≤ round (100 * x) := by
    rw [round_eq]
    exact Int.le_floor.mpr (by push_cast; linarith)
  exact_mod_cast this

/-- `reduceTimer` called with exactly the head duration, cursor not at the
last slot: the head is zeroed, the cursor advances, the rounded zero is
returned. -/
theorem reduceTimer_exact_mid (orig front rest' : List ℚ) (m : Int) (d : ℚ)
    (hne : rest' ≠ []) :
    OutputPattern.reduceTimer
        { origTimePattern := orig, timePattern := front ++ d :: rest', numReps := m,
          patternPt := front.length, patternSpent := false, startOfRepeat := false } d
      = .ok ({ origTimePattern := orig, timePattern := front ++ 0 :: rest', numReps := m,
               patternPt := front.length + 1, patternSpent := false,
               startOfRepeat := false }, some 0) := by
  have hlen : 0 < rest'.length := List.length_pos.mpr hne
  simp only [OutputPattern.reduceTimer, get?_append_cons, Bool.false_eq_true, if_false,
    sub_self, lt_self_iff_false, if_true, set_append_cons, round2_zero, le_refl, if_pos,
    List.length_append, List.length_cons]
  rw [if_pos (by omega)]

/-- `reduceTimer` called with exactly the head duration, cursor at the last
slot, at most one repeat left: the repeat attempt fails (count decremented
to ≤ 0), the pattern is spent, `None` is returned. -/
theorem reduceTimer_exact_last (orig front : List ℚ) (m : Int) (d : ℚ) (hm : m ≤ 1) :
    OutputPattern.reduceTimer
        { origTimePattern := orig, timePattern := front ++ [d], numReps := m,
          patternPt := front.length, patternSpent := false, startOfRepeat := false } d
      = .ok ({ origTimePattern := orig, timePattern := front ++ [0], numReps := m - 1,
               patternPt := front.length + 1, patternSpent := true,
               startOfRepeat := false }, none) := by
  simp only [OutputPattern.reduceTimer, get?_append_cons, Bool.false_eq_true, if_false,
    sub_self, lt_self_iff_false, if_true, set_append_cons, round2_zero, le_refl, if_pos,
    List.length_append, List.length_cons, List.length_nil]
  have hle : m - 1 ≤ 0 := by omega
  simp [OutputPattern.resetForRepeat, hle]

/-- The sequence of rumble values written in a trace. -/
def rumbleVals (tr : List (ℚ × DevAction)) : List Bool :=
  tr.filterMap fun e => match e.2 with | .setRumble b => some b | .setLEDs _ => none

/-- An alternating boolean sequence of the given length whose first element
is the negation of `b`. -/
def altFrom (b : Bool) : Nat → List Bool
  | 0 => []
  | n + 1 => (!b) :: altFrom (!b) n

/-- Number of adjacent changes in a boolean sequence. -/
def boolChanges : List Bool → Nat
  | [] => 0
  | [_] => 0
  | a :: b :: rest => (if a = b then 0 else 1) + boolChanges (b :: rest)

theorem rumbleVals_append (a b : List (ℚ × DevAction)) :
    rumbleVals (a ++ b) = rumbleVals a ++ rumbleVals b := by
  simp [rumbleVals]

/-- `nextDuration` over a single-pattern array with a valid head. -/
theorem nextDurationOf_single (p : OutputPattern) (d : ℚ)
    (hs : p.patternSpent = false) (hh : p.timePattern.get? p.patternPt = some d) :
    nextDurationOf [some p] none = .ok (some d) := by
  rw [List.get?_eq_getElem?] at hh
  simp [nextDurationOf, OutputPattern.timeRemaining, hs, hh]

/-- `nextDuration` over a single spent pattern stays infinite. -/
theorem nextDurationOf_single_spent (p : OutputPattern)
    (hs : p.patternSpent = true) :
    nextDurationOf [some p] none = .ok none := by
  simp [nextDurationOf, OutputPattern.timeRemaining, hs]

/-- The tick over a single rumble pattern hit with exactly its head
duration, cursor not at the last slot: the cursor advances and the rumble
channel is flipped. -/
theorem tickAll_single_mid (orig front rest' : List ℚ) (m : Int) (d : ℚ) (s : PulserSt)
    (hpats : s.pats = [some { origTimePattern := orig, timePattern := front ++ d :: rest',
                              numReps := m, patternPt := front.length,
                              patternSpent := false, startOfRepeat := false }])
    (hne : rest' ≠ []) :
    tickAll .RUMBLE d s = .ok
      { s with
        pats := [some { origTimePattern := orig, timePattern := front ++ 0 :: rest',
                        numReps := m, patternPt := front.length + 1,
                        patternSpent := false, startOfRepeat := false }]
        w := { s.w with rumble := !s.w.rumble }
        trace := s.trace ++ [(s.t, .setRumble (!s.w.rumble))] } := by
  unfold tickAll
  simp [hpats, List.range_succ, tickIdx, tickOne, List.getD_cons_zero,
    reduceTimer_exact_mid orig front rest' m d hne, flipRumbleOrLED, flipRumble,
    doSetRumble]

/-- The tick over a single rumble pattern hit with exactly its head
duration, cursor at the last slot, at most one repeat left: the pattern
becomes spent, no flip happens. -/
theorem tickAll_single_last (orig front : List ℚ) (m : Int) (d : ℚ) (s : PulserSt)
    (hpats : s.pats = [some { origTimePattern := orig, timePattern := front ++ [d],
                              numReps := m, patternPt := front.length,
                              patternSpent := false, startOfRepeat := false }])
    (hm : m ≤ 1) :
    tickAll .RUMBLE d s = .ok
      { s with
        pats := [some { origTimePattern := orig, timePattern := front ++ [0],
                        numReps := m - 1, patternPt := front.length + 1,
                        patternSpent := true, startOfRepeat := false }] } := by
  unfold tickAll
  simp [hpats, List.range_succ, tickIdx, tickOne, List.getD_cons_zero,
    reduceTimer_exact_last orig front m d hm]

/-- Sweeping a one-slot rumble pattern array whose pattern has at most one
repeat left: every remaining duration is consumed by exactly one tick, the
elapsed time grows by their sum, the channel is flipped once per
non-final tick (alternating), and the pattern ends spent with its repeat
count decremented once. -/
theorem sweep_single (rest : List ℚ) :
    ∀ (front orig : List ℚ) (m : Int) (fuel : Nat) (s : PulserSt),
    rest ≠ [] → m ≤ 1 → rest.length + 1 ≤ fuel →
    s.pats = [some { origTimePattern := orig, timePattern := front ++ rest,
                     numReps := m, patternPt := front.length,
                     patternSpent := false, startOfRepeat := false }] →
    ∃ s' p', sweepLoop .RUMBLE none fuel s = some (.allDone, s') ∧
      s'.t = s.t + rest.sum ∧
      rumbleVals s'.trace = rumbleVals s.trace ++ altFrom s.w.rumble (rest.length - 1) ∧
      s'.pats = [some p'] ∧ p'.patternSpent = true ∧ p'.numReps = m - 1 := by
  induction rest with
  | nil => intro _ _ _ _ _ hne; exact absurd rfl hne
  | cons d rest' ih =>
    intro front orig m fuel s _ hm hfuel hpats
    obtain ⟨f1, rfl⟩ : ∃ f1, fuel = f1 + 1 := ⟨fuel - 1, by omega⟩
    have hnext : nextDurationOf s.pats none = .ok (some d) := by
      rw [hpats]
      exact nextDurationOf_single _ _ rfl (get?_append_cons front d rest')
    have hpats1 : (PulserSt.mk s.pats s.mask s.w (s.t + d) s.trace).pats
        = [some { origTimePattern := orig, timePattern := front ++ d :: rest',
                  numReps := m, patternPt := front.length,
                  patternSpent := false, startOfRepeat := false }] := hpats
    cases rest' with
    | nil =>
      obtain ⟨f2, rfl⟩ : ∃ f2, f1 = f2 + 1 := ⟨f1 - 1, by simp at hfuel; omega⟩
      have htick := tickAll_single_last orig front m d _ hpats1 hm
      refine ⟨PulserSt.mk
          [some { origTimePattern := orig, timePattern := front ++ [0], numReps := m - 1,
                  patternPt := front.length + 1, patternSpent := true,
                  startOfRepeat := false }] s.mask s.w (s.t + d) s.trace,
        { origTimePattern := orig, timePattern := front ++ [0], numReps := m - 1,
          patternPt := front.length + 1, patternSpent := true, startOfRepeat := false },
        ?_, by simp, by simp [altFrom], rfl, rfl, rfl⟩
      show sweepLoop .RUMBLE none (f2 + 1 + 1) s = _
      simp only [sweepLoop, stopObserved, Bool.false_eq_true, if_false]
      simp only [hnext]
      simp only [htick]
      rw [nextDurationOf_single_spent _ rfl]
    | cons x xs =>
      have htick := tickAll_single_mid orig front (x :: xs) m d _ hpats1 (by simp)
      obtain ⟨s', p', hloop, ht, hvals, hpats', hspent, hreps⟩ :=
        ih (front ++ [0]) orig m f1
          (PulserSt.mk
            [some { origTimePattern := orig, timePattern := front ++ 0 :: x :: xs,
                    numReps := m, patternPt := front.length + 1,
                    patternSpent := false, startOfRepeat := false }]
            s.mask { rumble := !s.w.rumble, leds := s.w.leds } (s.t + d)
            (s.trace ++ [(s.t + d, .setRumble (!s.w.rumble))]))
          (by simp) hm (by simp at hfuel ⊢; omega)
          (by simp [List.append_assoc])
      refine ⟨s', p', ?_, ?_, ?_, hpats', hspent, hreps⟩
      · show sweepLoop .RUMBLE none (f1 + 1) s = _
        simp only [sweepLoop, stopObserved, Bool.false_eq_true, if_false]
        simp only [hnext]
        simp only [htick]
        exact hloop
      · rw [ht]; simp [List.sum_cons]; ring
      · rw [hvals]
        simp [rumbleVals, altFrom, List.filterMap_cons, List.filterMap_nil]

/-- The result of sweeping `[0.5, 0.5]` with `repeatCount = 1`: ON at 0,
one flip (to OFF) at 0.5, spent at t = 1 with no flip at the final tick,
cleanup OFF write at t = 1. -/
def runC3 : RunResult :=
  { exitKind := .allDone
    preCleanup :=
      { pats := [some { origTimePattern := [1/2, 1/2], timePattern := [0, 0],
                        numReps := 0, patternPt := 2, patternSpent := true,
                        startOfRepeat := false }]
        mask := []
        w := { rumble := false, leds := [false, false, false, false] }
        t := 1
        trace := [(0, .setRumble true), (1/2, .setRumble false)] }
    final :=
      { pats := [some { origTimePattern := [1/2, 1/2], timePattern := [0, 0],
                        numReps := 0, patternPt := 2, patternSpent := true,
                        startOfRepeat := false }]
        mask := []
        w := { rumble := false, leds := [false, false, false, false] }
        t := 1
        trace := [(0, .setRumble true), (1/2, .setRumble false), (1, .setRumble false)] }
    escErr := none }

/-- C3 counterexample: for the pattern `[0.5, 0.5]` with `repeatCount = 1`
(n = 2), the channel state changes only once after the forced-ON start (the
flip at t = 0.5; the cleanup write at t = 1 is a no-op on an already-OFF
channel) — not n = 2 times as claimed. -/
theorem C3_flip_count_counterexample :
    runPulser 4 [some (OutputPattern.init [1/2, 1/2] 1)] .RUMBLE none initialWiimote
      = some (.finished runC3) ∧
    ([(1:ℚ)/2, 1/2]).length = 2 ∧
    boolChanges (rumbleVals runC3.final.trace) = 1 ∧
    boolChanges (rumbleVals runC3.final.trace) ≠ 2 := by
  have hopt : ∀ q : ℚ, ((none : Option ℚ) = some q) = False := by
    intro q
    simp
  refine ⟨?_, rfl, rfl, by simp [runC3, rumbleVals, boolChanges]⟩
  norm_num [runPulser, turnIndicatorOn, sweepLoop, nextDurationOf, tickAll, tickIdx,
    tickOne, OutputPattern.init, OutputPattern.timeRemaining, OutputPattern.reduceTimer,
    OutputPattern.resetForRepeat, stopObserved, doSetRumble, doSetLEDs, flipRumbleOrLED,
    flipRumble, flipLED, cleanup, round2, initialWiimote, runC3, hopt]

/-- C3 amended: for every non-empty `[d0..dn-1]` with `repeatCount = 1`, the
sweep's elapsed time when the pattern becomes spent (and the sweep exits) is
exactly `sum(d0..dn-1)`, the rumble writes before cleanup are the forced ON
followed by n-1 alternating flips, and the final OFF is the cleanup write at
`t = sum`. -/
theorem C3_elapsed_and_flips_amended (ds : List ℚ) (fuel : Nat) (w : Wiimote)
    (hne : ds ≠ []) (hfuel : ds.length + 1 ≤ fuel) :
    ∃ r p', runPulser fuel [some (OutputPattern.init ds 1)] .RUMBLE none w
        = some (.finished r) ∧
      r.exitKind = .allDone ∧
      r.preCleanup.t = ds.sum ∧
      r.preCleanup.pats = [some p'] ∧ p'.patternSpent = true ∧
      rumbleVals r.preCleanup.trace = true :: altFrom true (ds.length - 1) ∧
      r.final.trace = r.preCleanup.trace ++ [(ds.sum, .setRumble false)] ∧
      r.final.w.rumble = false := by
  have hs1 : turnIndicatorOn .RUMBLE
        (PulserSt.mk [some (OutputPattern.init ds 1)] [] w 0 [])
      = .ok (PulserSt.mk [some (OutputPattern.init ds 1)] []
          { rumble := true, leds := w.leds } 0 [(0, .setRumble true)]) := rfl
  obtain ⟨s', p', hloop, ht, hvals, hpats', hspent, hreps⟩ :=
    sweep_single ds [] ds 1 fuel
      (PulserSt.mk [some (OutputPattern.init ds 1)] []
        { rumble := true, leds := w.leds } 0 [(0, .setRumble true)])
      hne le_rfl hfuel (by simp [OutputPattern.init])
  refine ⟨{ exitKind := .allDone, preCleanup := s', final := cleanup .RUMBLE s',
            escErr := none }, p', ?_, rfl, ?_, hpats', hspent, ?_, ?_, ?_⟩
  · simp only [runPulser]
    rw [hs1]
    simp only [hloop]
  · rw [ht]; simp
  · rw [hvals]; simp [rumbleVals, List.filterMap_cons]
  · simp only [cleanup, doSetRumble]
    rw [ht]
    simp
  · simp [cleanup, doSetRumble]

/-- C3 witness: the amended theorem applied to `[0.5, 0.5]`, repeat 1. -/
theorem C3_elapsed_and_flips_amended_witness :
    ∃ r p', runPulser 4 [some (OutputPattern.init [1/2, 1/2] 1)] .RUMBLE none
        initialWiimote = some (.finished r) ∧
      r.exitKind = .allDone ∧
      r.preCleanup.t = ([(1:ℚ)/2, 1/2]).sum ∧
      r.preCleanup.pats = [some p'] ∧ p'.patternSpent = true ∧
      rumbleVals r.preCleanup.trace = true :: altFrom true (([(1:ℚ)/2, 1/2]).length - 1) ∧
      r.final.trace = r.preCleanup.trace ++ [(([(1:ℚ)/2, 1/2]).sum, .setRumble false)] ∧
      r.final.w.rumble = false :=
  C3_elapsed_and_flips_amended [1/2, 1/2] 4 initialWiimote (by simp) (by simp)

/-- C10: a pattern with any repeat count at most 1 — including 0 and
negative counts — runs exactly one full traversal of its sequence: the
sweep exits (all done) at elapsed time `sum ds` with the pattern spent and
the count decremented exactly once, the rumble writes being the forced ON
and the n-1 per-tick flips; the first cursor exhaustion already fails the
repeat attempt no matter how negative the count was. -/
theorem C10_single_traversal (ds : List ℚ) (m : Int) (fuel : Nat) (w : Wiimote)
    (hne : ds ≠ []) (hm : m ≤ 1) (hfuel : ds.length + 1 ≤ fuel) :
    ∃ r p', runPulser fuel [some (OutputPattern.init ds m)] .RUMBLE none w
        = some (.finished r) ∧
      r.exitKind = .allDone ∧
      r.preCleanup.t = ds.sum ∧
      r.preCleanup.pats = [some p'] ∧ p'.patternSpent = true ∧ p'.numReps = m - 1 ∧
      rumbleVals r.preCleanup.trace = true :: altFrom true (ds.length - 1) ∧
      r.final.w.rumble = false := by
  have hs1 : turnIndicatorOn .RUMBLE
        (PulserSt.mk [some (OutputPattern.init ds m)] [] w 0 [])
      = .ok (PulserSt.mk [some (OutputPattern.init ds m)] []
          { rumble := true, leds := w.leds } 0 [(0, .setRumble true)]) := rfl
  obtain ⟨s', p', hloop, ht, hvals, hpats', hspent, hreps⟩ :=
    sweep_single ds [] ds m fuel
      (PulserSt.mk [some (OutputPattern.init ds m)] []
        { rumble := true, leds := w.leds } 0 [(0, .setRumble true)])
      hne hm hfuel (by simp [OutputPattern.init])
  refine ⟨{ exitKind := .allDone, preCleanup := s', final := cleanup .RUMBLE s',
            escErr := none }, p', ?_, rfl, ?_, hpats', hspent, hreps, ?_, ?_⟩
  · simp only [runPulser]
    rw [hs1]
    simp only [hloop]
  · rw [ht]; simp
  · rw [hvals]; simp [rumbleVals, List.filterMap_cons]
  · simp [cleanup, doSetRumble]

/-- C10 witness: the theorem applied to `[0.5]` with repeat count -3. -/
theorem C10_single_traversal_witness :
    ∃ r p', runPulser 2 [some (OutputPattern.init [1/2] (-3))] .RUMBLE none
        initialWiimote = some (.finished r) ∧
      r.exitKind = .allDone ∧
      r.preCleanup.t = ([(1:ℚ)/2]).sum ∧
      r.preCleanup.pats = [some p'] ∧ p'.patternSpent = true ∧ p'.numReps = -3 - 1 ∧
      rumbleVals r.preCleanup.trace = true :: altFrom true (([(1:ℚ)/2]).length - 1) ∧
      r.final.w.rumble = false :=
  C10_single_traversal [1/2] (-3) 2 initialWiimote (by simp) (by omega) (by simp)

/-- C9: branch behaviour of `reduceTimer` on a non-spent pattern whose
cursor is valid, when the clamped-and-rounded head value is ≤ 0: if the
advanced cursor is still in bounds, the (never negative) rounded value is
returned with `startOfRepeat = false` and the repeat count untouched; if the
advanced cursor reached the end, the repeat count is decremented — when the
decremented count is still positive the cursor resets to 0, the working copy
is restored from the pristine template, `startOfRepeat` is set and the first
template duration is returned; when it is not, the pattern is marked spent
and `none` is returned. -/
theorem C9_reduceTimer_branches (p : OutputPattern) (t head : ℚ)
    (hs : p.patternSpent = false)
    (hh : p.timePattern.get? p.patternPt = some head)
    (hr : round2 (if head - t < 0 then 0 else head - t) ≤ 0) :
    (p.patternPt + 1 < p.timePattern.length →
      ∃ p', p.reduceTimer t
          = .ok (p', some (round2 (if head - t < 0 then 0 else head - t))) ∧
        0 ≤ round2 (if head - t < 0 then 0 else head - t) ∧
        p'.startOfRepeat = false ∧ p'.patternPt = p.patternPt + 1 ∧
        p'.patternSpent = false ∧ p'.numReps = p.numReps) ∧
    (p.patternPt + 1 = p.timePattern.length → 0 < p.numReps - 1 →
      ∀ v0, p.origTimePattern.get? 0 = some v0 →
      ∃ p', p.reduceTimer t = .ok (p', some v0) ∧
        p'.startOfRepeat = true ∧ p'.patternPt = 0 ∧
        p'.timePattern = p.origTimePattern ∧
        p'.numReps = p.numReps - 1 ∧ p'.patternSpent = false) ∧
    (p.patternPt + 1 = p.timePattern.length → p.numReps - 1 ≤ 0 →
      ∃ p', p.reduceTimer t = .ok (p', none) ∧
        p'.patternSpent = true ∧ p'.numReps = p.numReps - 1) := by
  have hnn : 0 ≤ round2 (if head - t < 0 then 0 else head - t) := by
    apply round2_nonneg
    split_ifs with h
    · exact le_refl 0
    · linarith
  refine ⟨?_, ?_, ?_⟩
  · intro hlt
    refine ⟨{ origTimePattern := p.origTimePattern,
              timePattern := p.timePattern.set p.patternPt
                (if head - t < 0 then 0 else head - t),
              numReps := p.numReps, patternPt := p.patternPt + 1,
              patternSpent := p.patternSpent, startOfRepeat := false },
      ?_, hnn, rfl, rfl, hs, rfl⟩
    rw [List.get?_eq_getElem?] at hh
    simp only [OutputPattern.reduceTimer, hs, Bool.false_eq_true, if_false,
      List.get?_eq_getElem?, hh]
    rw [if_pos hr]
    rw [if_pos (by simpa using hlt)]
  · intro hend hreps v0 hv0
    refine ⟨{ origTimePattern := p.origTimePattern, timePattern := p.origTimePattern,
              numReps := p.numReps - 1, patternPt := 0,
              patternSpent := p.patternSpent, startOfRepeat := true },
      ?_, rfl, rfl, rfl, rfl, hs⟩
    rw [List.get?_eq_getElem?] at hh hv0
    simp only [OutputPattern.reduceTimer, hs, Bool.false_eq_true, if_false,
      List.get?_eq_getElem?, hh]
    rw [if_pos hr]
    rw [if_neg (by simp; omega)]
    simp only [OutputPattern.resetForRepeat, hs, Bool.false_eq_true, if_false]
    rw [if_neg (by omega)]
    simp only [hv0]
  · intro hend hreps
    refine ⟨{ origTimePattern := p.origTimePattern,
              timePattern := p.timePattern.set p.patternPt
                (if head - t < 0 then 0 else head - t),
              numReps := p.numReps - 1, patternPt := p.patternPt + 1,
              patternSpent := true, startOfRepeat := false },
      ?_, rfl, rfl⟩
    rw [List.get?_eq_getElem?] at hh
    simp only [OutputPattern.reduceTimer, hs, Bool.false_eq_true, if_false,
      List.get?_eq_getElem?, hh]
    rw [if_pos hr]
    rw [if_neg (by simp; omega)]
    simp only [OutputPattern.resetForRepeat, hs, Bool.false_eq_true, if_false]
    rw [if_pos (by omega)]

/-- C9 witness: the in-bounds branch at the pattern `[1, 1]` with 2 repeats,
reduced by exactly its head. -/
theorem C9_reduceTimer_branches_witness :
    ∃ p', (OutputPattern.init [1, 1] 2).reduceTimer 1
        = .ok (p', some (round2 (if (1:ℚ) - 1 < 0 then 0 else 1 - 1))) ∧
      0 ≤ round2 (if (1:ℚ) - 1 < 0 then 0 else 1 - 1) ∧
      p'.startOfRepeat = false ∧
      p'.patternPt = (OutputPattern.init [1, 1] 2).patternPt + 1 ∧
      p'.patternSpent = false ∧
      p'.numReps = (OutputPattern.init [1, 1] 2).numReps :=
  (C9_reduceTimer_branches (OutputPattern.init [1, 1] 2) 1 1 rfl rfl
    (by simp [round2_zero])).1 (by decide)

/-- `getD` of the `isSome` image agrees with `isSome` of `getD`. -/
theorem presence_getD (l : List (Option OutputPattern)) (i : Nat) :
    (l.map Option.isSome).getD i false = (l.getD i none).isSome := by
  induction l generalizing i with
  | nil => cases i <;> rfl
  | cons a l ih =>
    cases i with
    | zero => rfl
    | succ n => simpa [List.getD] using ih n

/-- `ledMaskOf` depends only on which slots are present. -/
theorem ledMaskOf_congr {a b : List (Option OutputPattern)}
    (h : a.map Option.isSome = b.map Option.isSome) : ledMaskOf a = ledMaskOf b := by
  have hlen : a.length = b.length := by
    have := congrArg List.length h
    simpa using this
  have hmatch : ∀ l : List (Option OutputPattern), ∀ i : Nat,
      (match l.getD i none with
       | some _ => some true
       | none => (none : Option Bool))
        = if (l.getD i none).isSome then some true else none := by
    intro l i
    cases hg : l.getD i none <;> simp [hg]
  unfold ledMaskOf
  rw [hlen]
  congr 1
  funext i
  rw [hmatch a i, hmatch b i, ← presence_getD, ← presence_getD, h]

/-- Replacing a present slot by a present slot keeps the presence map. -/
theorem presence_set {l : List (Option OutputPattern)} {i : Nat}
    {p q : OutputPattern} (h : l.getD i none = some p) :
    (l.set i (some q)).map Option.isSome = l.map Option.isSome := by
  induction l generalizing i with
  | nil => simp
  | cons a l ih =>
    cases i with
    | zero =>
      simp only [List.getD_cons_zero] at h
      simp [h]
    | succ n =>
      simp only [List.getD_cons_succ] at h
      simp [ih h]

/-- The invariant carried by every reachable pulser state (after the initial
`turnIndicatorOn`): the stored `LEDMask` matches the current pattern array,
whose presence map never changes. -/
def goodSt (pats0 : List (Option OutputPattern)) (s : PulserSt) : Prop :=
  s.mask = ledMaskOf s.pats ∧ s.pats.map Option.isSome = pats0.map Option.isSome

/-- The invariant on a tick result, error or not. -/
def goodRes (pats0 : List (Option OutputPattern)) :
    Except (PyErr × PulserSt) PulserSt → Prop
  | .ok s => goodSt pats0 s
  | .error (_, s) => goodSt pats0 s

theorem turnOn_good {pats0 : List (Option OutputPattern)} (ind : Indicator)
    (s : PulserSt) (h : goodSt pats0 s) : goodRes pats0 (turnIndicatorOn ind s) := by
  cases ind with
  | RUMBLE =>
    rcases hg : s.pats.get? 0 with _ | (_ | p) <;>
      simp only [turnIndicatorOn, hg] <;> exact h
  | LED => exact ⟨rfl, h.2⟩

theorem flip_good {pats0 : List (Option OutputPattern)} (ind : Indicator) (i : Nat)
    (s : PulserSt) (h : goodSt pats0 s) : goodRes pats0 (flipRumbleOrLED ind i s) := by
  cases ind with
  | RUMBLE => exact h
  | LED =>
    rcases hg : s.w.leds.get? i with _ | cur <;>
      simp only [flipRumbleOrLED, flipLED, hg]
    · exact h
    · split_ifs <;> exact h

theorem tickOne_good {pats0 : List (Option OutputPattern)} (ind : Indicator) (i : Nat)
    (dur : ℚ) (s : PulserSt) (h : goodSt pats0 s) :
    goodRes pats0 (tickOne ind i (s.pats.getD i none) s dur) := by
  rcases hg : s.pats.getD i none with _ | p
  · simp only [tickOne]; exact h
  · simp only [tickOne]
    rcases hr : p.reduceTimer dur with e | pr
    · exact h
    · obtain ⟨p', reduced⟩ := pr
      have h1 : goodSt pats0 { s with pats := s.pats.set i (some p') } := by
        refine ⟨?_, by rw [presence_set hg]; exact h.2⟩
        show s.mask = ledMaskOf (s.pats.set i (some p'))
        rw [h.1]
        exact ledMaskOf_congr (presence_set hg).symm
      cases hsr : p'.startOfRepeat with
      | false =>
        simp only [hsr, Bool.false_eq_true, if_false]
        split_ifs
        · exact flip_good ind i _ h1
        · exact h1
      | true =>
        simp only [hsr, if_true]
        rcases hE : turnIndicatorOn ind { s with pats := s.pats.set i (some p') }
          with e2 | s2
        · have hx := turnOn_good ind { s with pats := s.pats.set i (some p') } h1
          rw [hE] at hx
          simp only [hE]
          exact hx
        · have hx := turnOn_good ind { s with pats := s.pats.set i (some p') } h1
          rw [hE] at hx
          simp only [hE]
          split_ifs
          · exact flip_good ind i s2 hx
          · exact hx

theorem tickIdx_good {pats0 : List (Option OutputPattern)} (ind : Indicator) (dur : ℚ)
    (is : List Nat) : ∀ s : PulserSt, goodSt pats0 s →
    goodRes pats0 (tickIdx ind dur is s) := by
  induction is with
  | nil => intro s h; exact h
  | cons i rest ih =>
    intro s h
    have h1 := tickOne_good ind i dur s h
    rcases hE : tickOne ind i (s.pats.getD i none) s dur with e | s'
    · rw [hE] at h1
      simp only [tickIdx, hE]
      exact h1
    · rw [hE] at h1
      simp only [tickIdx, hE]
      exact ih s' h1

theorem sweepLoop_good {pats0 : List (Option OutputPattern)} (ind : Indicator)
    (stopAt : Option ℚ) :
    ∀ (fuel : Nat) (s : PulserSt), goodSt pats0 s →
    ∀ ex s', sweepLoop ind stopAt fuel s = some (ex, s') → goodSt pats0 s' := by
  intro fuel
  induction fuel with
  | zero =>
    intro s _ ex s' h
    simp [sweepLoop] at h
  | succ f ih =>
    intro s hg ex s' h
    simp only [sweepLoop] at h
    split_ifs at h with hstop
    · simp only [Option.some.injEq, Prod.mk.injEq] at h
      rw [← h.2]
      exact hg
    · split at h
      · simp only [Option.some.injEq, Prod.mk.injEq] at h
        rw [← h.2]
        exact hg
      · simp only [Option.some.injEq, Prod.mk.injEq] at h
        rw [← h.2]
        exact hg
      · rename_i d hd
        split at h
        · rename_i e s2 htk
          have hgood := tickIdx_good ind d (List.range s.pats.length)
            { s with t := s.t + d } hg
          rw [show tickIdx ind d (List.range s.pats.length) { s with t := s.t + d }
                = tickAll ind d { s with t := s.t + d } from rfl, htk] at hgood
          simp only [Option.some.injEq, Prod.mk.injEq] at h
          rw [← h.2]
          exact hgood
        · rename_i s2 htk
          have hgood := tickIdx_good ind d (List.range s.pats.length)
            { s with t := s.t + d } hg
          rw [show tickIdx ind d (List.range s.pats.length) { s with t := s.t + d }
                = tickAll ind d { s with t := s.t + d } from rfl, htk] at hgood
          exact ih s2 hgood ex s' h

/-- Pointwise description of the spec-modelled `setLEDs` semantics. -/
theorem applyLEDMask_get? (ls : List Bool) (ms : List (Option Bool)) (i : Nat) :
    (applyLEDMask ls ms).get? i
      = match ls.get? i, ms.get? i with
        | some l, some mo => some (mo.getD l)
        | some l, none => some l
        | none, _ => none := by
  induction ls generalizing ms i with
  | nil => cases ms <;> cases i <;> rfl
  | cons l ls ih =>
    cases ms with
    | nil =>
      cases i with
      | zero => rfl
      | succ n => simpa [applyLEDMask] using ih [] n
    | cons mo ms =>
      cases i with
      | zero => rfl
      | succ n => simpa [applyLEDMask] using ih ms n

/-- Entry of the LED mask below the channel bound. -/
theorem ledMaskOf_get?_lt {pats : List (Option OutputPattern)} {i : Nat}
    (h : i < min NUM_LEDS pats.length) :
    (ledMaskOf pats).get? i
      = some (match pats.getD i none with
              | some _ => some true
              | none => none) := by
  unfold ledMaskOf
  rw [List.get?_map, List.get?_range h]
  rfl

/-- Entries of the LED mask beyond the channel bound are absent. -/
theorem ledMaskOf_get?_ge {pats : List (Option OutputPattern)} {i : Nat}
    (h : min NUM_LEDS pats.length ≤ i) :
    (ledMaskOf pats).get? i = none := by
  apply List.get?_eq_none.mpr
  simpa [ledMaskOf] using h

/-- C2: whenever a pulser run reaches the sweep and terminates — by stop
flag, by natural completion, or by an exception raised mid-sweep — the
`finally` cleanup runs: for rumble the channel is unconditionally switched
off; for LEDs every channel with a present pattern (within the
`min NUM_LEDS (len patternArray)` window the pulser drives) ends OFF, while
channels with an absent pattern and channels outside the window keep the
state they had at cleanup time. -/
theorem C2_cleanup_on_every_termination (fuel : Nat)
    (pats : List (Option OutputPattern)) (ind : Indicator) (stopAt : Option ℚ)
    (w : Wiimote) (r : RunResult)
    (h : runPulser fuel pats ind stopAt w = some (.finished r)) :
    r.final = cleanup ind r.preCleanup ∧
    (ind = .RUMBLE → r.final.w.rumble = false) ∧
    (ind = .LED →
      (∀ i, i < min NUM_LEDS pats.length → (pats.getD i none).isSome →
        r.final.w.leds.getD i false = false) ∧
      (∀ i, i < min NUM_LEDS pats.length → ¬ (pats.getD i none).isSome →
        r.final.w.leds.get? i = r.preCleanup.w.leds.get? i) ∧
      (∀ i, min NUM_LEDS pats.length ≤ i →
        r.final.w.leds.get? i = r.preCleanup.w.leds.get? i)) := by
  simp only [runPulser] at h
  rcases hT : turnIndicatorOn ind { pats := pats, mask := [], w := w, t := 0, trace := [] }
    with ⟨e, se⟩ | s1
  · simp only [hT] at h
    exact absurd h (by simp)
  · simp only [hT] at h
    rcases hL : sweepLoop ind stopAt fuel s1 with _ | ⟨ex, s2⟩
    · simp only [hL] at h
      exact absurd h (by simp)
    · simp only [hL, Option.some.injEq, RunOutcome.finished.injEq] at h
      subst h
      refine ⟨rfl, ?_, ?_⟩
      · rintro rfl
        simp [cleanup, doSetRumble]
      · rintro rfl
        have hs1 : Except.ok (doSetLEDs (ledMaskOf pats)
              { pats := pats, mask := ledMaskOf pats, w := w, t := 0, trace := [] })
            = Except.ok s1 := hT
        simp only [Except.ok.injEq] at hs1
        have hg1 : goodSt pats s1 := by
          rw [← hs1]
          exact ⟨rfl, rfl⟩
        have hg2 : goodSt pats s2 := sweepLoop_good .LED stopAt fuel s1 hg1 ex s2 hL
        have hmask : s2.mask = ledMaskOf pats := by
          rw [hg2.1]
          exact ledMaskOf_congr hg2.2
        have hfinal : (cleanup .LED s2).w.leds
            = applyLEDMask s2.w.leds ((ledMaskOf pats).map fun o =>
                match o with | some _ => some false | none => none) := by
          simp [cleanup, doSetLEDs, hmask]
        refine ⟨?_, ?_, ?_⟩
        · intro i hi hp
          have hm : ((ledMaskOf pats).map fun o =>
                match o with | some _ => some false | none => none).get? i
              = some (some false) := by
            rw [List.get?_map, ledMaskOf_get?_lt hi]
            rcases hgd : pats.getD i none with _ | p
            · rw [hgd] at hp
              simp at hp
            · rfl
          show (cleanup Indicator.LED s2).w.leds.getD i false = false
          rw [List.getD_eq_getD_get?, hfinal, applyLEDMask_get?, hm]
          rcases hq : s2.w.leds.get? i with _ | l <;> rfl
        · intro i hi hp
          have hm : ((ledMaskOf pats).map fun o =>
                match o with | some _ => some false | none => none).get? i
              = some none := by
            rw [List.get?_map, ledMaskOf_get?_lt hi]
            rcases hgd : pats.getD i none with _ | p
            · rfl
            · rw [hgd] at hp
              simp at hp
          show (cleanup Indicator.LED s2).w.leds.get? i = s2.w.leds.get? i
          rw [hfinal, applyLEDMask_get?, hm]
          rcases hq : s2.w.leds.get? i with _ | l <;> rfl
        · intro i hi
          have hm : ((ledMaskOf pats).map fun o =>
                match o with | some _ => some false | none => none).get? i
              = none := by
            rw [List.get?_map, ledMaskOf_get?_ge hi]
            rfl
          show (cleanup Indicator.LED s2).w.leds.get? i = s2.w.leds.get? i
          rw [hfinal, applyLEDMask_get?, hm]
          rcases hq : s2.w.leds.get? i with _ | l <;> rfl

/-- Result of an LED run over one present pattern whose stop flag is already
set at t = 0: the loop head observes it before the first tick and the
cleanup switches the forced-ON LED0 back off. -/
def rC2w : RunResult :=
  { exitKind := .normal
    preCleanup := { pats := [some (OutputPattern.init [1] 5)], mask := [some true]
                    w := { rumble := false, leds := [true, false, false, false] }, t := 0
                    trace := [(0, .setLEDs [some true])] }
    final := { pats := [some (OutputPattern.init [1] 5)], mask := [some false]
               w := { rumble := false, leds := [false, false, false, false] }, t := 0
               trace := [(0, .setLEDs [some true]), (0, .setLEDs [some false])] }
    escErr := none }

/-- C2 witness: the cleanup theorem applied to an LED run cancelled at
t = 0. -/
theorem C2_cleanup_on_every_termination_witness :
    rC2w.final = cleanup .LED rC2w.preCleanup ∧
    (Indicator.LED = .RUMBLE → rC2w.final.w.rumble = false) ∧
    (Indicator.LED = .LED →
      (∀ i, i < min NUM_LEDS ([some (OutputPattern.init [1] 5)] :
            List (Option OutputPattern)).length →
        (([some (OutputPattern.init [1] 5)] :
            List (Option OutputPattern)).getD i none).isSome →
        rC2w.final.w.leds.getD i false = false) ∧
      (∀ i, i < min NUM_LEDS ([some (OutputPattern.init [1] 5)] :
            List (Option OutputPattern)).length →
        ¬ (([some (OutputPattern.init [1] 5)] :
            List (Option OutputPattern)).getD i none).isSome →
        rC2w.final.w.leds.get? i = rC2w.preCleanup.w.leds.get? i) ∧
      (∀ i, min NUM_LEDS ([some (OutputPattern.init [1] 5)] :
            List (Option OutputPattern)).length ≤ i →
        rC2w.final.w.leds.get? i = rC2w.preCleanup.w.leds.get? i)) :=
  C2_cleanup_on_every_termination 1 [some (OutputPattern.init [1] 5)] .LED (some 0)
    initialWiimote rC2w rfl
